import Mathlib

set_option maxRecDepth 100000

/-!
Verification of the ZK lending MVP (Zinko) against its specification.

The development shallowly embeds:
* the `CollateralCheck` circom circuit (`circuits/collateral_check.circom`):
  its witness-generation semantics over the BN254 scalar field and the
  constraint system induced by its `<==` statements;
* the `ZKLending` ledger contract (Solidity 0.8, checked arithmetic):
  `getMaxBorrowable`, `isPositionSolvent`, `getPositionHealth`,
  `withdrawCollateral`, `repay`, `borrow`;
* the `VerifierAdapter` contract;
* a spec-level model of the Groth16 proof binding, for the verifier whose
  code is generated by snarkjs and not present in the repository;
* the proof serialization the scripts actually use — JavaScript's built-in
  JSON codec (`JSON.stringify` / `JSON.parse`) — embedded at the character
  level on the value fragment snarkjs proof objects occupy.

Circom semantics used for the circuit (documented choices):
* all signal values are field elements, i.e. naturals reduced modulo the
  BN254 scalar-field prime `p`;
* the circom operator `/` is field division (multiplication by the modular
  inverse), not integer division (circom's integer division is `\`);
  witness generation fails on division by a signal whose value is `0`;
* `s <== e` assigns the value of `e` to `s` during witness generation and
  adds the constraint `s = e`;
* the relational expression on the circuit's last line
  (`borrowAmount * collateralizationRatio <= collateralValue * 100;`)
  is a bare expression statement, not an `===` constraint, so it adds no
  constraint and cannot make witness generation fail;
* the comparison in `borrowAmount <= maxBorrowable ? 1 : 0` compares the
  canonical integer representatives of the two field elements.
-/

namespace Circuit

/-- The prime of the BN254 (alt_bn128) scalar field, circom's default field. -/
def p : Nat := 21888242871839275222246405745257275088548364400416034343698204186575808495617

/-- Fuel-bounded modular exponentiation by repeated squaring.  The fuel is
structural so that the kernel can evaluate it; `256` units of fuel are enough
for any exponent below `2 ^ 256`. -/
def powModAux : Nat → Nat → Nat → Nat → Nat
  | 0, _, _, _ => 1
  | fuel + 1, b, e, m =>
    if e = 0 then 1 % m
    else
      let h := powModAux fuel (b * b % m) (e / 2) m
      if e % 2 = 1 then h * b % m else h

/-- Modular inverse in the scalar field, computed as `a ^ (p - 2) mod p`. -/
def finv (a : Nat) : Nat := powModAux 256 (a % p) (p - 2) p

/-- Circom field division `a / b` (multiplication by the modular inverse). -/
def fdiv (a b : Nat) : Nat := a % p * finv b % p

/-- A full assignment of values to every signal of the `CollateralCheck`
template, in declaration order: five private inputs, five outputs, three
intermediate signals. -/
structure Assignment where
  userCollateralAmount : Nat
  collateralPrice : Nat
  userAddress : Nat
  borrowAmount : Nat
  collateralizationRatio : Nat
  userAddressHash : Nat
  borrowAmountHash : Nat
  collateralValue : Nat
  maxBorrowable : Nat
  canBorrow : Nat
  collateralValueCalc : Nat
  maxBorrowableCalc : Nat
  borrowCheck : Nat
  deriving DecidableEq, Repr

/-- Witness generation for `CollateralCheck`: evaluate each `<==` statement
of the circuit in order over the field.  The only failure the statements can
produce is the field division by a zero `collateralizationRatio`; the final
relational line of the circuit is a bare expression statement, so it is
evaluated for no effect and never fails. -/
def genWitness (userCollateralAmount collateralPrice userAddress borrowAmount
    collateralizationRatio : Nat) : Option Assignment :=
  let uca := userCollateralAmount % p
  let cp := collateralPrice % p
  let ua := userAddress % p
  let ba := borrowAmount % p
  let ratio := collateralizationRatio % p
  if ratio = 0 then none
  else
    let cvc := uca * cp % p
    let cv := cvc
    let mbc := fdiv (cv * 100 % p) ratio
    let mb := mbc
    let bc := if ba ≤ mb then 1 else 0
    some { userCollateralAmount := uca, collateralPrice := cp, userAddress := ua,
           borrowAmount := ba, collateralizationRatio := ratio,
           userAddressHash := ua, borrowAmountHash := ba,
           collateralValue := cv, maxBorrowable := mb, canBorrow := bc,
           collateralValueCalc := cvc, maxBorrowableCalc := mbc, borrowCheck := bc }

/-- The constraint system of the circuit: one equality per `<==` statement.
The relational expression on the circuit's last line contributes no
constraint.  There is no remainder signal and no range-check constraint
anywhere in the system. -/
def constraintsHold (a : Assignment) : Bool :=
  (a.collateralValueCalc == a.userCollateralAmount * a.collateralPrice % p) &&
  (a.collateralValue == a.collateralValueCalc) &&
  (a.maxBorrowableCalc == fdiv (a.collateralValue * 100 % p) a.collateralizationRatio) &&
  (a.maxBorrowable == a.maxBorrowableCalc) &&
  (a.borrowCheck == if a.borrowAmount ≤ a.maxBorrowable then 1 else 0) &&
  (a.canBorrow == a.borrowCheck) &&
  (a.userAddressHash == a.userAddress) &&
  (a.borrowAmountHash == a.borrowAmount)

/-- The public signals of the circuit, in circom's order: the five outputs in
declaration order. -/
def publicSignalsOf (a : Assignment) : List Nat :=
  [a.userAddressHash, a.borrowAmountHash, a.collateralValue, a.maxBorrowable, a.canBorrow]

end Circuit

namespace Groth16

/-- Modelled from the spec: the Groth16 prover and verifier themselves are
provided by snarkjs and by the generated `Verifier.sol`, neither of which is
part of the repository's sources.  Per the spec's data model, a proof is
"bound to exactly the public inputs it was generated against — changing any
public input invalidates verification", and a proof verifies if and only if
some witness extending the given public inputs satisfies the constraint
system.  The model therefore carries the witness assignment the proof was
produced from and lets verification succeed exactly when that assignment
satisfies the constraint system and its public part equals the declared
public inputs. -/
structure GProof where
  assignment : Circuit.Assignment
  deriving DecidableEq, Repr

/-- Modelled from the spec: `prove(provingKey, witness) -> Proof`, with the
public inputs of the witness bound into the proof. -/
def prove (w : Circuit.Assignment) : GProof := ⟨w⟩

/-- Modelled from the spec: `verify(verificationKey, proof, publicInputs)`
accepts exactly when the witness bound into the proof satisfies every
constraint and the declared public inputs equal the ones the proof was
generated against. -/
def verifyProof (pr : GProof) (input : List Nat) : Bool :=
  Circuit.constraintsHold pr.assignment && (Circuit.publicSignalsOf pr.assignment == input)

end Groth16

/-- Returns `true` exactly on `Except.ok` results. -/
def exceptIsOk {ε α : Type} : Except ε α → Bool
  | .ok _ => true
  | .error _ => false

namespace ZKLending

/-- The distinct `require` failures (reverts) of the `ZKLending` contract,
plus the checked-arithmetic and division panics of Solidity 0.8. -/
inductive LErr where
  | amountZero
  | insufficientCollateral
  | positionInsolvent
  | invalidPrice
  | exceedsMaxBorrowable
  | invalidProof
  | invalidPublicSignals
  | userAddressMismatch
  | borrowAmountMismatch
  | transferFailed
  | overflow
  | divisionByZero
  deriving DecidableEq, Repr

/-- The bound of the EVM's 256-bit unsigned integers; Solidity 0.8 checked
arithmetic reverts instead of wrapping past it. -/
def U : Nat := 2 ^ 256

/-- The storage of the `ZKLending` contract that the modelled operations
touch, together with the stable-token balances the operations move.
Addresses are naturals; the collateral token's balances are not tracked
(its transfers out of the contract are modelled as succeeding, since every
withdrawn amount was previously deposited). -/
structure LState where
  collateralBalance : Nat → Nat
  borrowBalance : Nat → Nat
  stableBalance : Nat → Nat
  contractStable : Nat
  price : Int
  decimals : Nat
  collateralizationRatio : Nat

/-- `getMaxBorrowable`: reject a non-positive oracle price, then compute
`collateralValue = collateralBalance[user] * price / 10 ** decimals` and
return `collateralValue * 100 / collateralizationRatio`, with Solidity 0.8
checked arithmetic (overflow and division-by-zero revert). -/
def getMaxBorrowable (s : LState) (user : Nat) : Except LErr Nat :=
  if s.price ≤ 0 then .error .invalidPrice
  else if U ≤ 10 ^ s.decimals then .error .overflow
  else if U ≤ s.collateralBalance user * s.price.toNat then .error .overflow
  else if U ≤ s.collateralBalance user * s.price.toNat / 10 ^ s.decimals * 100 then
    .error .overflow
  else if s.collateralizationRatio = 0 then .error .divisionByZero
  else .ok (s.collateralBalance user * s.price.toNat / 10 ^ s.decimals * 100 /
            s.collateralizationRatio)

/-- `isPositionSolvent`: a position with no debt is solvent without the
oracle being consulted; otherwise reject a non-positive price and compare
`collateralAmount * price / 10 ** decimals` with
`borrowBalance[user] * collateralizationRatio / 100`. -/
def isPositionSolvent (s : LState) (user : Nat) (collateralAmount : Nat) :
    Except LErr Bool :=
  if s.borrowBalance user = 0 then .ok true
  else if s.price ≤ 0 then .error .invalidPrice
  else if U ≤ 10 ^ s.decimals then .error .overflow
  else if U ≤ collateralAmount * s.price.toNat then .error .overflow
  else if U ≤ s.borrowBalance user * s.collateralizationRatio then .error .overflow
  else .ok (decide (s.borrowBalance user * s.collateralizationRatio / 100 ≤
                    collateralAmount * s.price.toNat / 10 ^ s.decimals))

/-- `getPositionHealth`: the sentinel `2 ^ 256 - 1` for a debt-free user;
otherwise reject a non-positive price and return
`collateralValue * 100 / requiredCollateral`. -/
def getPositionHealth (s : LState) (user : Nat) : Except LErr Nat :=
  if s.borrowBalance user = 0 then .ok (U - 1)
  else if s.price ≤ 0 then .error .invalidPrice
  else if U ≤ 10 ^ s.decimals then .error .overflow
  else if U ≤ s.collateralBalance user * s.price.toNat then .error .overflow
  else if U ≤ s.borrowBalance user * s.collateralizationRatio then .error .overflow
  else if s.borrowBalance user * s.collateralizationRatio / 100 = 0 then
    .error .divisionByZero
  else if U ≤ s.collateralBalance user * s.price.toNat / 10 ^ s.decimals * 100 then
    .error .overflow
  else .ok (s.collateralBalance user * s.price.toNat / 10 ^ s.decimals * 100 /
            (s.borrowBalance user * s.collateralizationRatio / 100))

/-- `withdrawCollateral`: positive amount, sufficient balance, and the
position must remain solvent with the remaining collateral; on success the
caller's collateral balance decreases by `amount` and nothing else changes
(a revert leaves the state untouched, which the `Except` result models by
returning no state at all). -/
def withdrawCollateral (s : LState) (caller amount : Nat) : Except LErr LState :=
  if amount = 0 then .error .amountZero
  else if s.collateralBalance caller < amount then .error .insufficientCollateral
  else
    match isPositionSolvent s caller (s.collateralBalance caller - amount) with
    | .error e => .error e
    | .ok false => .error .positionInsolvent
    | .ok true =>
      .ok { s with collateralBalance := fun a =>
              if a = caller then s.collateralBalance caller - amount
              else s.collateralBalance a }

/-- `repay`: positive amount; `transferFrom` pulls the full `amount` from the
caller into the contract (failing if the caller's balance is short, or on a
checked-add overflow of the recipient's balance); the debt is then clamped:
zeroed when `amount >= borrowBalance[msg.sender]`, else reduced by
`amount`. -/
def repay (s : LState) (caller amount : Nat) : Except LErr LState :=
  if amount = 0 then .error .amountZero
  else if s.stableBalance caller < amount then .error .transferFailed
  else if U ≤ s.contractStable + amount then .error .transferFailed
  else
    .ok { s with
      stableBalance := fun a =>
        if a = caller then s.stableBalance caller - amount else s.stableBalance a,
      contractStable := s.contractStable + amount,
      borrowBalance := fun a =>
        if a = caller then
          (if s.borrowBalance caller ≤ amount then 0 else s.borrowBalance caller - amount)
        else s.borrowBalance a }

/-- `borrow`: positive amount, the new debt must not exceed
`getMaxBorrowable`, the ZK proof must verify, and the public signals must
bind the caller's address (`uint256(uint160(msg.sender))`) and the borrow
amount; on success the debt grows by `amount` and the contract transfers
`amount` stable tokens to the caller. -/
def borrow (s : LState) (caller amount : Nat) (pr : Groth16.GProof)
    (publicSignals : List Nat) : Except LErr LState :=
  if amount = 0 then .error .amountZero
  else
    match getMaxBorrowable s caller with
    | .error e => .error e
    | .ok maxB =>
      if U ≤ s.borrowBalance caller + amount then .error .overflow
      else if maxB < s.borrowBalance caller + amount then .error .exceedsMaxBorrowable
      else if Groth16.verifyProof pr publicSignals = false then .error .invalidProof
      else if publicSignals.length < 2 then .error .invalidPublicSignals
      else if publicSignals.getD 0 0 ≠ caller % 2 ^ 160 then .error .userAddressMismatch
      else if publicSignals.getD 1 0 ≠ amount then .error .borrowAmountMismatch
      else if s.contractStable < amount then .error .transferFailed
      else if U ≤ s.stableBalance caller + amount then .error .transferFailed
      else .ok { s with
        borrowBalance := fun a =>
          if a = caller then s.borrowBalance caller + amount else s.borrowBalance a,
        contractStable := s.contractStable - amount,
        stableBalance := fun a =>
          if a = caller then s.stableBalance caller + amount else s.stableBalance a }

end ZKLending

namespace VerifierAdapter

/-- `verifyProofWithValidation`: verify the proof, then require at least two
public inputs, the first equal to `uint256(uint160(expectedUser))` and the
second equal to `expectedAmount`; any failure yields `false`. -/
def verifyProofWithValidation (pr : Groth16.GProof) (input : List Nat)
    (expectedUser expectedAmount : Nat) : Bool :=
  if Groth16.verifyProof pr input = false then false
  else if input.length < 2 then false
  else if input.getD 0 0 ≠ expectedUser % 2 ^ 160 then false
  else if input.getD 1 0 ≠ expectedAmount then false
  else true

end VerifierAdapter

namespace Js

/-!
The repository serializes proofs with JavaScript's built-in JSON codec:
`JSON.stringify(proof, null, 2)` writes `proof.json`
(`circuits/generate_proof.js:28`) and `JSON.parse` reads proofs and inputs
back (`scripts/generate-proof.js:55`, `circuits/generate_proof.js:9`).  The
definitions below embed those builtins on the value fragment that snarkjs
proof objects occupy — strings, arrays and objects whose strings contain no
quote or escape characters (snarkjs proof components are decimal-digit
strings and the identifiers `groth16` / `bn128`).  Two documented
simplifications: the optional indentation argument of `stringify` only
inserts inter-token whitespace, which `parse` ignores, so the compact form
is printed; string escape sequences never arise in this fragment and are not
modelled.  `parse` fails with a single generic exception on unparsable
input, and — exactly as in the scripts — performs no validation that the
parsed value is a proof.
-/

/-- The one failure of the embedded `JSON.parse`: a generic parse exception
(the scripts catch it and report a generic failure; no error distinguishes a
malformed proof from any other bad input). -/
inductive JsErr where
  | parseError
  deriving DecidableEq, Repr

mutual
/-- A JavaScript JSON value of the fragment snarkjs proof objects occupy:
strings, arrays, objects.  Strings are character lists. -/
inductive Jv where
  | str : List Char → Jv
  | arr : JvList → Jv
  | obj : JvFields → Jv
/-- The elements of a JSON array. -/
inductive JvList where
  | nil : JvList
  | cons : Jv → JvList → JvList
/-- The key-value fields of a JSON object, in order. -/
inductive JvFields where
  | fnil : JvFields
  | fcons : List Char → Jv → JvFields → JvFields
end

mutual
/-- Printer of the fragment: what `JSON.stringify` emits (compact form). -/
def printJv : Jv → List Char
  | .str s => '"' :: (s ++ ['"'])
  | .arr l => '[' :: (printItems l ++ [']'])
  | .obj fs => '{' :: (printFields fs ++ ['}'])
/-- Array elements, comma-separated. -/
def printItems : JvList → List Char
  | .nil => []
  | .cons v .nil => printJv v
  | .cons v (.cons w t) => printJv v ++ ',' :: printItems (.cons w t)
/-- Object fields, comma-separated, each `"key":value`. -/
def printFields : JvFields → List Char
  | .fnil => []
  | .fcons k v .fnil => '"' :: (k ++ '"' :: ':' :: printJv v)
  | .fcons k v (.fcons k2 w t) =>
    ('"' :: (k ++ '"' :: ':' :: printJv v)) ++ ',' :: printFields (.fcons k2 w t)
end

mutual
/-- The escape-free fragment: no string (value or key) contains a quote. -/
def okJv : Jv → Bool
  | .str s => s.all (fun c => c != '"')
  | .arr l => okItems l
  | .obj fs => okFields fs
/-- Holds when `okJv` holds of every array element. -/
def okItems : JvList → Bool
  | .nil => true
  | .cons v t => okJv v && okItems t
/-- Holds when every field value satisfies `okJv` and every key is quote-free. -/
def okFields : JvFields → Bool
  | .fnil => true
  | .fcons k v t => k.all (fun c => c != '"') && okJv v && okFields t
end

/-- Scan a string body up to its closing quote. -/
def parseStrChars : List Char → Except JsErr (List Char × List Char)
  | [] => .error .parseError
  | c :: rest =>
    if c = '"' then .ok ([], rest)
    else
      match parseStrChars rest with
      | .ok (s, r) => .ok (c :: s, r)
      | .error e => .error e

mutual
/-- Recursive-descent reading of one value, as `JSON.parse` does
(fuel-bounded so the kernel can evaluate it; `parseJs` below supplies
enough fuel for any input). -/
def parseJv : Nat → List Char → Except JsErr (Jv × List Char)
  | 0, _ => .error .parseError
  | fuel + 1, cs =>
    match cs with
    | [] => .error .parseError
    | c :: rest =>
      if c = '"' then
        match parseStrChars rest with
        | .ok (s, r) => .ok (.str s, r)
        | .error e => .error e
      else if c = '[' then
        match rest with
        | ']' :: r2 => .ok (.arr .nil, r2)
        | _ =>
          match parseItems fuel rest with
          | .ok (l, ']' :: r2) => .ok (.arr l, r2)
          | _ => .error .parseError
      else if c = '{' then
        match rest with
        | '}' :: r2 => .ok (.obj .fnil, r2)
        | _ =>
          match parseFields fuel rest with
          | .ok (fs, '}' :: r2) => .ok (.obj fs, r2)
          | _ => .error .parseError
      else .error .parseError
/-- One or more comma-separated array elements. -/
def parseItems : Nat → List Char → Except JsErr (JvList × List Char)
  | 0, _ => .error .parseError
  | fuel + 1, cs =>
    match parseJv fuel cs with
    | .error e => .error e
    | .ok (v, rest) =>
      match rest with
      | ',' :: r2 =>
        match parseItems fuel r2 with
        | .ok (l, r3) => .ok (.cons v l, r3)
        | .error e => .error e
      | _ => .ok (.cons v .nil, rest)
/-- One or more comma-separated `"key":value` fields. -/
def parseFields : Nat → List Char → Except JsErr (JvFields × List Char)
  | 0, _ => .error .parseError
  | fuel + 1, cs =>
    match cs with
    | '"' :: cs1 =>
      match parseStrChars cs1 with
      | .error _ => .error .parseError
      | .ok (k, rest1) =>
        match rest1 with
        | ':' :: cs2 =>
          match parseJv fuel cs2 with
          | .error e => .error e
          | .ok (v, rest2) =>
            match rest2 with
            | ',' :: cs3 =>
              match parseFields fuel cs3 with
              | .ok (fs, r) => .ok (.fcons k v fs, r)
              | .error e => .error e
            | _ => .ok (.fcons k v .fnil, rest2)
        | _ => .error .parseError
    | _ => .error .parseError
end

/-- Serialization of a whole document: `JSON.stringify`. -/
def stringifyJs (v : Jv) : List Char := printJv v

/-- Deserialization of a whole document: `JSON.parse` — one value, no
trailing characters; any failure is the single generic exception. -/
def parseJs (cs : List Char) : Except JsErr Jv :=
  match parseJv (cs.length + 1) cs with
  | .ok (v, []) => .ok v
  | _ => .error .parseError

end Js

/-- A snarkjs Groth16 proof object as serialized in `proof.json`: the
`pi_a` / `pi_c` components are arrays of decimal strings, `pi_b` an array of
arrays of decimal strings, plus the `protocol` and `curve` identifiers. -/
structure SnarkjsProof where
  pi_a : List (List Char)
  pi_b : List (List (List Char))
  pi_c : List (List Char)
  protocol : List Char
  curve : List Char

/-- A list of strings as a JSON array of strings. -/
def strItems : List (List Char) → Js.JvList
  | [] => .nil
  | s :: t => .cons (.str s) (strItems t)

/-- A list of string-lists as a JSON array of arrays of strings. -/
def rowsItems : List (List (List Char)) → Js.JvList
  | [] => .nil
  | r :: t => .cons (.arr (strItems r)) (rowsItems t)

/-- The JSON value a snarkjs proof object denotes (the field layout of
`proof.json`). -/
def proofToJv (pr : SnarkjsProof) : Js.Jv :=
  .obj (.fcons ['p', 'i', '_', 'a'] (.arr (strItems pr.pi_a))
    (.fcons ['p', 'i', '_', 'b'] (.arr (rowsItems pr.pi_b))
      (.fcons ['p', 'i', '_', 'c'] (.arr (strItems pr.pi_c))
        (.fcons ['p', 'r', 'o', 't', 'o', 'c', 'o', 'l'] (.str pr.protocol)
          (.fcons ['c', 'u', 'r', 'v', 'e'] (.str pr.curve) .fnil)))))

/-- The deployment's proof serialization: `JSON.stringify` of the proof
object (`circuits/generate_proof.js:28`). -/
def encodeSnarkjsProof (pr : SnarkjsProof) : List Char :=
  Js.stringifyJs (proofToJv pr)

/-- A concrete snarkjs-shaped proof object. -/
def sampleSnarkjsProof : SnarkjsProof :=
  { pi_a := [['1'], ['2'], ['1']],
    pi_b := [[['3'], ['4']], [['5'], ['6']], [['1'], ['0']]],
    pi_c := [['7'], ['8'], ['1']],
    protocol := ['g', 'r', 'o', 't', 'h', '1', '6'],
    curve := ['b', 'n', '1', '2', '8'] }
/-- The witness assignment the circuit's statements produce on the spec's
concrete scenario (collateral 100, price 2000, ratio 150) with a borrow
request of 150000; `maxBorrowable` carries the field quotient of
`20000000 / 150`, which is astronomically larger than the requested amount,
so the informational `canBorrow` output is `1`. -/
def scenarioAssignment : Circuit.Assignment :=
  { userCollateralAmount := 100, collateralPrice := 2000, userAddress := 9,
    borrowAmount := 150000, collateralizationRatio := 150,
    userAddressHash := 9, borrowAmountHash := 150000,
    collateralValue := 200000,
    maxBorrowable := Circuit.fdiv 20000000 150, canBorrow := 1,
    collateralValueCalc := 200000,
    maxBorrowableCalc := Circuit.fdiv 20000000 150, borrowCheck := 1 }

/-- The public signals bound into a proof generated from
`scenarioAssignment`. -/
def scenarioPublic : List Nat := Circuit.publicSignalsOf scenarioAssignment

/-- A sample ledger state: every account holds 100 collateral, owes 50, and
holds 1000 stable tokens; the oracle quotes price 1 with 0 decimals and the
collateralization ratio is the deployed 150. -/
def sampleState : ZKLending.LState :=
  { collateralBalance := fun _ => 100, borrowBalance := fun _ => 50,
    stableBalance := fun _ => 1000, contractStable := 1000,
    price := 1, decimals := 0, collateralizationRatio := 150 }

/-- The full pipeline check for one input tuple: witness generation must
succeed, the generated assignment must satisfy every constraint, and the
proof produced from it must verify against its own public signals. -/
def witnessProvesAndVerifies (ca cp ua ba ratio : Nat) : Bool :=
  match Circuit.genWitness ca cp ua ba ratio with
  | none => false
  | some w =>
    Circuit.constraintsHold w &&
    Groth16.verifyProof (Groth16.prove w) (Circuit.publicSignalsOf w)

/-- A debt-free account facing a negative oracle price. -/
def zeroDebtBadPriceState : ZKLending.LState :=
  { sampleState with price := -1, borrowBalance := fun _ => 0 }

/-- An indebted account facing a negative oracle price. -/
def debtBadPriceState : ZKLending.LState :=
  { sampleState with price := -1 }

/-- The ledger state after account 0 withdraws 10 collateral from
`sampleState`. -/
def sampleStateAfterW : ZKLending.LState :=
  { sampleState with collateralBalance := fun a =>
      if a = 0 then sampleState.collateralBalance 0 - 10
      else sampleState.collateralBalance a }

/-- The ledger state after account 0 repays 80 (more than its debt of 50)
into `sampleState`. -/
def sampleStateAfterR : ZKLending.LState :=
  { sampleState with
    stableBalance := fun a =>
      if a = 0 then sampleState.stableBalance 0 - 80 else sampleState.stableBalance a,
    contractStable := sampleState.contractStable + 80,
    borrowBalance := fun a =>
      if a = 0 then
        (if sampleState.borrowBalance 0 ≤ 80 then 0 else sampleState.borrowBalance 0 - 80)
      else sampleState.borrowBalance a }

namespace Js

theorem parseStrChars_append (s rest : List Char)
    (h : s.all (fun c => c != '"') = true) :
    parseStrChars (s ++ '"' :: rest) = .ok (s, rest) := by
  induction s with
  | nil => simp [parseStrChars]
  | cons c t ih =>
    simp only [List.all_cons, Bool.and_eq_true] at h
    have hc : c ≠ '"' := by simpa using h.1
    simp only [List.cons_append, parseStrChars, List.append_eq]
    rw [if_neg hc, ih h.2]

theorem printJv_head (v : Jv) :
    ∃ c t, printJv v = c :: t ∧ (c = '"' ∨ c = '[' ∨ c = '{') := by
  cases v with
  | str s => exact ⟨'"', s ++ ['"'], by simp [printJv], Or.inl rfl⟩
  | arr l => exact ⟨'[', printItems l ++ [']'], by simp [printJv], Or.inr (Or.inl rfl)⟩
  | obj fs => exact ⟨'{', printFields fs ++ ['}'], by simp [printJv], Or.inr (Or.inr rfl)⟩

theorem printItems_head (v : Jv) (t : JvList) :
    ∃ c cs, printItems (.cons v t) = c :: cs ∧ (c = '"' ∨ c = '[' ∨ c = '{') := by
  obtain ⟨c, tl, hv, hc⟩ := printJv_head v
  cases t with
  | nil => exact ⟨c, tl, by simp [printItems, hv], hc⟩
  | cons w t2 =>
    exact ⟨c, tl ++ ',' :: printItems (.cons w t2), by simp [printItems, hv], hc⟩

theorem printFields_head (k : List Char) (v : Jv) (t : JvFields) :
    ∃ cs, printFields (.fcons k v t) = '"' :: cs := by
  cases t with
  | fnil => exact ⟨k ++ '"' :: ':' :: printJv v, by simp [printFields]⟩
  | fcons k2 w t2 =>
    exact ⟨(k ++ '"' :: ':' :: printJv v) ++ ',' :: printFields (.fcons k2 w t2),
      by simp [printFields]⟩

theorem parse_print (fuel : Nat) :
    (∀ v rest, okJv v = true → (printJv v).length + 1 ≤ fuel →
      parseJv fuel (printJv v ++ rest) = .ok (v, rest)) ∧
    (∀ l rest, okItems l = true → l ≠ JvList.nil → rest.head? ≠ some ',' →
      (printItems l).length + 2 ≤ fuel →
      parseItems fuel (printItems l ++ rest) = .ok (l, rest)) ∧
    (∀ fs rest, okFields fs = true → fs ≠ JvFields.fnil → rest.head? ≠ some ',' →
      (printFields fs).length + 2 ≤ fuel →
      parseFields fuel (printFields fs ++ rest) = .ok (fs, rest)) := by
  induction fuel with
  | zero =>
    exact ⟨fun v rest _ hf => absurd hf (by omega),
           fun l rest _ _ _ hf => absurd hf (by omega),
           fun fs rest _ _ _ hf => absurd hf (by omega)⟩
  | succ n ih =>
    obtain ⟨ih1, ih2, ih3⟩ := ih
    refine ⟨?_, ?_, ?_⟩
    · intro v rest hok hfuel
      cases v with
      | str s =>
        have hq : s.all (fun c => c != '"') = true := by simpa [okJv] using hok
        rw [show printJv (.str s) = '"' :: (s ++ ['"']) from by simp [printJv],
          List.cons_append, List.append_assoc, List.singleton_append]
        simp only [parseJv, List.append_eq]
        rw [if_pos trivial, parseStrChars_append s rest hq]
      | arr l =>
        cases l with
        | nil =>
          rw [show printJv (.arr .nil) = '[' :: ([] ++ [']']) from by
              simp [printJv, printItems],
            List.nil_append, List.cons_append, List.singleton_append]
          simp only [parseJv, List.append_eq]
          rw [if_neg (by decide), if_pos trivial]
        | cons w t =>
          have hokl : okItems (.cons w t) = true := by simpa [okJv] using hok
          have hlen : (printItems (JvList.cons w t)).length + 2 ≤ n := by
            have h1 : (printJv (.arr (.cons w t))).length =
                (printItems (.cons w t)).length + 2 := by
              simp [printJv]
            omega
          have hresult := ih2 (.cons w t) (']' :: rest) hokl
            (fun h => JvList.noConfusion h) (by simp) hlen
          obtain ⟨c, cs, hpi, hcdisj⟩ := printItems_head w t
          rw [show printJv (.arr (.cons w t)) =
                '[' :: (printItems (.cons w t) ++ [']']) from by simp [printJv],
            List.cons_append, List.append_assoc, List.singleton_append]
          simp only [parseJv, List.append_eq]
          rw [if_neg (by decide), if_pos trivial]
          rw [hpi, List.cons_append] at hresult ⊢
          split
          · rename_i r2 heq
            injection heq with h1 _
            rcases hcdisj with h | h | h <;> rw [h] at h1 <;> exact absurd h1 (by decide)
          · rw [hresult]
            rfl
      | obj fs =>
        cases fs with
        | fnil =>
          rw [show printJv (.obj .fnil) = '{' :: ([] ++ ['}']) from by
              simp [printJv, printFields],
            List.nil_append, List.cons_append, List.singleton_append]
          simp only [parseJv, List.append_eq]
          rw [if_neg (by decide), if_neg (by decide), if_pos trivial]
        | fcons k w t =>
          have hokf : okFields (.fcons k w t) = true := by simpa [okJv] using hok
          have hlen : (printFields (JvFields.fcons k w t)).length + 2 ≤ n := by
            have h1 : (printJv (.obj (.fcons k w t))).length =
                (printFields (.fcons k w t)).length + 2 := by
              simp [printJv]
            omega
          have hresult := ih3 (.fcons k w t) ('}' :: rest) hokf
            (fun h => JvFields.noConfusion h) (by simp) hlen
          obtain ⟨cs, hpf⟩ := printFields_head k w t
          rw [show printJv (.obj (.fcons k w t)) =
                '{' :: (printFields (.fcons k w t) ++ ['}']) from by simp [printJv],
            List.cons_append, List.append_assoc, List.singleton_append]
          simp only [parseJv, List.append_eq]
          rw [if_neg (by decide), if_neg (by decide), if_pos trivial]
          rw [hpf, List.cons_append] at hresult ⊢
          split
          · rename_i r2 heq
            injection heq with h1 _
            exact absurd h1 (by decide)
          · rw [hresult]
            rfl
    · intro l rest hok hne hrest hfuel
      cases l with
      | nil => exact absurd rfl hne
      | cons v t =>
        have hokv : okJv v = true ∧ okItems t = true := by
          simpa [okItems, Bool.and_eq_true] using hok
        cases t with
        | nil =>
          have hpv : printItems (JvList.cons v .nil) = printJv v := by
            simp [printItems]
          have hlenv : (printJv v).length + 1 ≤ n := by
            have h1 : (printItems (JvList.cons v JvList.nil)).length =
                (printJv v).length := by simp [hpv]
            omega
          rw [hpv]
          simp only [parseItems, List.append_eq]
          rw [ih1 v rest hokv.1 hlenv]
          dsimp only
          split
          · simp at hrest
          · rfl
        | cons w t2 =>
          have hpi : printItems (JvList.cons v (JvList.cons w t2)) =
              printJv v ++ ',' :: printItems (JvList.cons w t2) := by
            simp [printItems]
          have hlens : (printItems (JvList.cons v (JvList.cons w t2))).length =
              (printJv v).length + 1 + (printItems (JvList.cons w t2)).length := by
            simp [hpi]
            omega
          have hlenv : (printJv v).length + 1 ≤ n := by omega
          have hlent : (printItems (JvList.cons w t2)).length + 2 ≤ n := by omega
          rw [hpi, List.append_assoc, List.cons_append]
          simp only [parseItems, List.append_eq]
          rw [ih1 v (',' :: (printItems (.cons w t2) ++ rest)) hokv.1 hlenv]
          dsimp only
          split
          · rename_i r2 heq
            injection heq with h1 h2
            subst h2
            rw [ih2 (.cons w t2) rest hokv.2 (fun h => JvList.noConfusion h) hrest hlent]
          · rename_i hx
            exact absurd rfl (hx (printItems (JvList.cons w t2) ++ rest))
    · intro fs rest hok hne hrest hfuel
      cases fs with
      | fnil => exact absurd rfl hne
      | fcons k v t =>
        have hokf : k.all (fun c => c != '"') = true ∧ okJv v = true ∧
            okFields t = true := by
          simpa [okFields, Bool.and_eq_true, and_assoc] using hok
        cases t with
        | fnil =>
          have hpf : printFields (JvFields.fcons k v .fnil) =
              '"' :: (k ++ '"' :: ':' :: printJv v) := by
            simp [printFields]
          have hlenv : (printJv v).length + 1 ≤ n := by
            have h1 : (printFields (JvFields.fcons k v JvFields.fnil)).length =
                k.length + (printJv v).length + 3 := by
              simp [hpf]
              omega
            omega
          rw [hpf, List.cons_append, List.append_assoc, List.cons_append,
            List.cons_append]
          simp only [parseFields, List.append_eq]
          rw [parseStrChars_append k (':' :: (printJv v ++ rest)) hokf.1]
          dsimp only
          split
          · rename_i cs2 heq
            injection heq with h1 h2
            subst h2
            rw [ih1 v rest hokf.2.1 hlenv]
            dsimp only
            split
            · simp at hrest
            · rfl
          · rename_i hx
            exact absurd rfl (hx (printJv v ++ rest))
        | fcons k2 w t2 =>
          have hpf : printFields (JvFields.fcons k v (JvFields.fcons k2 w t2)) =
              ('"' :: (k ++ '"' :: ':' :: printJv v)) ++
                ',' :: printFields (JvFields.fcons k2 w t2) := by
            simp [printFields]
          have hlens :
              (printFields (JvFields.fcons k v (JvFields.fcons k2 w t2))).length =
              k.length + (printJv v).length + 4 +
                (printFields (JvFields.fcons k2 w t2)).length := by
            simp [hpf]
            omega
          have hlenv : (printJv v).length + 1 ≤ n := by omega
          have hlent : (printFields (JvFields.fcons k2 w t2)).length + 2 ≤ n := by
            omega
          rw [hpf]
          simp only [List.cons_append, List.append_assoc]
          simp only [parseFields, List.append_eq]
          rw [parseStrChars_append k
            (':' :: (printJv v ++ ',' :: (printFields (.fcons k2 w t2) ++ rest)))
            hokf.1]
          dsimp only
          split
          · rename_i cs2 heq
            injection heq with h1 h2
            subst h2
            rw [ih1 v (',' :: (printFields (.fcons k2 w t2) ++ rest)) hokf.2.1 hlenv]
            dsimp only
            split
            · rename_i cs3 heq2
              injection heq2 with h3 h4
              subst h4
              rw [ih3 (.fcons k2 w t2) rest hokf.2.2 (fun h => JvFields.noConfusion h)
                hrest hlent]
            · rename_i hx
              exact absurd rfl (hx (printFields (JvFields.fcons k2 w t2) ++ rest))
          · rename_i hx
            exact absurd rfl
              (hx (printJv v ++ ',' :: (printFields (JvFields.fcons k2 w t2) ++ rest)))

theorem parseJs_stringifyJs (v : Jv) (hok : okJv v = true) :
    parseJs (stringifyJs v) = .ok v := by
  unfold parseJs stringifyJs
  have h := (parse_print ((printJv v).length + 1)).1 v [] hok (Nat.le_refl _)
  rw [List.append_nil] at h
  rw [h]

end Js

/-- C1: the spec demands that witness generation fail (with
`UnsatisfiableWitness`) for every tuple with
`borrowAmount * ratio > collateralAmount * price * 100`.  The circuit
enforces no such constraint — its final relational line is a bare expression
statement — so witness generation succeeds on the insolvent tuple
`(collateralAmount, price, ratio, borrowAmount) = (1, 1, 150, 1000)`. -/
theorem C1_insolvent_witness_still_generated :
    1 * 1 * 100 < 1000 * 150 ∧
    (Circuit.genWitness 1 1 7 1000 150).isSome = true := by decide

/-- C2: the claim says the constraint system forces
`maxBorrowable = floor(collateralValue * 100 / ratio)` through a remainder
signal `r` with `collateralValue*100 = maxBorrowable*ratio + r` and a range
proof `0 <= r < ratio`.  No such signals or constraints exist:
`scenarioAssignment` satisfies every constraint the circuit actually has for
the scenario inputs (collateral 100, price 2000, ratio 150) and yet assigns
`maxBorrowable` the field quotient of `20000000 / 150`, which differs from
`floor(20000000 / 150) = 133333`. -/
theorem C2_constraints_do_not_force_floor :
    Circuit.constraintsHold scenarioAssignment = true ∧
    scenarioAssignment.userCollateralAmount = 100 ∧
    scenarioAssignment.collateralPrice = 2000 ∧
    scenarioAssignment.collateralizationRatio = 150 ∧
    scenarioAssignment.maxBorrowable ≠ 133333 := by decide

/-- C4 (counterexample): the claim quantifies over every tuple satisfying
`borrowAmount * ratio <= collateralAmount * price * 100`.  The all-zero
tuple satisfies that inequality, yet witness generation fails on it, because
the circuit divides by the `collateralizationRatio` signal and field
division by zero is an error. -/
theorem C4_zero_ratio_counterexample :
    0 * 0 ≤ 0 * 0 * 100 ∧ Circuit.genWitness 0 0 0 0 0 = none := by decide

/-- C4 (amended): for every tuple whose `collateralizationRatio` is nonzero
modulo the field prime (the solvency inequality is kept from the original
claim although the circuit never needs it), witness generation succeeds, the
generated assignment satisfies every constraint of the circuit, and the
proof produced from it verifies against the matching public inputs. -/
theorem C4_completeness_amended (ca cp ua ba ratio : Nat)
    (_hsolvent : ba * ratio ≤ ca * cp * 100)
    (hratio : ratio % Circuit.p ≠ 0) :
    witnessProvesAndVerifies ca cp ua ba ratio = true := by
  unfold witnessProvesAndVerifies
  simp only [Circuit.genWitness, hratio, if_false]
  simp [Circuit.constraintsHold, Groth16.verifyProof, Groth16.prove,
    Circuit.publicSignalsOf]

/-- C4 (witness): the amended completeness theorem applied to the spec's
concrete scenario with the solvent borrow request of 50000. -/
theorem C4_completeness_witness :
    50000 * 150 ≤ 100 * 2000 * 100 ∧ (150 : Nat) % Circuit.p ≠ 0 ∧
    witnessProvesAndVerifies 100 2000 9 50000 150 = true :=
  ⟨by decide, by decide,
    C4_completeness_amended 100 2000 9 50000 150 (by decide) (by decide)⟩

/-- C5: on the concrete scenario (collateral 100, price 2000, ratio 150) the
circuit's `maxBorrowable` output is the field quotient of `20000000 / 150`
(`/` is field division in circom), not `floor = 133333`, and the borrow
request of 150000 does not fail at witness generation. -/
theorem C5_scenario_diverges :
    (Circuit.genWitness 100 2000 9 50000 150).map Circuit.Assignment.maxBorrowable =
      some (Circuit.fdiv 20000000 150) ∧
    Circuit.fdiv 20000000 150 ≠ 133333 ∧
    (Circuit.genWitness 100 2000 9 150000 150).isSome = true := by decide

/-- C6: `userAddressHash <== userAddress` is an identity pass-through, not a
collision-resistant hash: two runs that differ only in the private
`userAddress` produce public outputs that contain the respective addresses
in the clear. -/
theorem C6_passthrough_exposes_address :
    (Circuit.genWitness 100 2000 424242 50000 150).map Circuit.Assignment.userAddressHash =
      some 424242 ∧
    (Circuit.genWitness 100 2000 313131 50000 150).map Circuit.Assignment.userAddressHash =
      some 313131 := by decide

set_option maxHeartbeats 1000000 in
/-- C3: public inputs `(userIdentity, requestedAmount)` are bound into the
proof: a proof that verifies against public inputs `P` is rejected by the
verifier against any `P' ≠ P`, is rejected by
`VerifierAdapter.verifyProofWithValidation`, and cannot make the ledger's
`borrow` succeed. -/
theorem C3_no_replay (pr : Groth16.GProof) (P P' : List Nat) (eu ea : Nat)
    (s : ZKLending.LState) (caller amount : Nat)
    (hv : Groth16.verifyProof pr P = true) (hne : P' ≠ P) :
    Groth16.verifyProof pr P' = false ∧
    VerifierAdapter.verifyProofWithValidation pr P' eu ea = false ∧
    exceptIsOk (ZKLending.borrow s caller amount pr P') = false := by
  unfold Groth16.verifyProof at hv
  rw [Bool.and_eq_true] at hv
  have hconstr : Circuit.constraintsHold pr.assignment = true := hv.1
  have hP : Circuit.publicSignalsOf pr.assignment = P := eq_of_beq hv.2
  have hfalse : Groth16.verifyProof pr P' = false := by
    unfold Groth16.verifyProof
    rw [hconstr, hP]
    cases hbe : P == P' with
    | true => exact absurd (eq_of_beq hbe) (Ne.symm hne)
    | false => simp [hbe]
  refine ⟨hfalse, ?_, ?_⟩
  · unfold VerifierAdapter.verifyProofWithValidation
    rw [hfalse]
    simp
  · unfold ZKLending.borrow
    rw [hfalse]
    split
    · rfl
    · cases hmb : ZKLending.getMaxBorrowable s caller with
      | error e => simp only [hmb]; rfl
      | ok maxB =>
        simp only [hmb]
        split
        · rfl
        · split
          · rfl
          · rfl

/-- C7 (counterexample): the claim says decoding any malformed byte string
yields a `MalformedProof` error; the deployment's decode is `JSON.parse`,
which accepts the byte string `"a"` — a well-formed JSON value that encodes
no proof — with no error at all, and rejects the unparsable `{` with its
single generic parse exception, not a `MalformedProof` error. -/
theorem C7_decode_accepts_nonproof :
    Js.parseJs ['"', 'a', '"'] = .ok (.str ['a']) ∧
    Js.parseJs ['{'] = .error .parseError :=
  ⟨rfl, rfl⟩

/-- C7 (amended): under the deployment's actual serialization — the JSON
codec — decoding inverts encoding on every proof object (whose strings are
escape-free, as snarkjs's decimal-string components and identifiers are),
and decoding an unparsable byte string yields the codec's single generic
parse error; no distinct `MalformedProof` error exists. -/
theorem C7_json_roundtrip (pr : SnarkjsProof)
    (hok : Js.okJv (proofToJv pr) = true) :
    Js.parseJs (encodeSnarkjsProof pr) = .ok (proofToJv pr) ∧
    Js.parseJs ['{'] = .error .parseError :=
  ⟨Js.parseJs_stringifyJs (proofToJv pr) hok, rfl⟩

/-- C7 (witness): the amended round-trip theorem applied to the concrete
proof object `sampleSnarkjsProof`. -/
theorem C7_json_roundtrip_witness :
    Js.parseJs (encodeSnarkjsProof sampleSnarkjsProof) =
      .ok (proofToJv sampleSnarkjsProof) ∧
    Js.parseJs ['{'] = .error .parseError :=
  C7_json_roundtrip sampleSnarkjsProof (by rfl)

/-- C8 (counterexample): the claim says `isPositionSolvent` fails for every
non-positive oracle price, but for a debt-free account it returns `ok true`
without ever consulting the oracle. -/
theorem C8_zero_debt_counterexample :
    zeroDebtBadPriceState.price ≤ 0 ∧
    ZKLending.isPositionSolvent zeroDebtBadPriceState 0 5 = .ok true := by
  exact ⟨by decide, rfl⟩

/-- C8 (amended): with a non-positive oracle price, `getMaxBorrowable`
always fails, and `isPositionSolvent` and `getPositionHealth` fail whenever
the queried account has non-zero debt (with zero debt they return their
early results without reading the price). -/
theorem C8_nonpositive_price_rejected (s : ZKLending.LState) (u c : Nat)
    (hp : s.price ≤ 0) (hdebt : s.borrowBalance u ≠ 0) :
    exceptIsOk (ZKLending.getMaxBorrowable s u) = false ∧
    exceptIsOk (ZKLending.isPositionSolvent s u c) = false ∧
    exceptIsOk (ZKLending.getPositionHealth s u) = false := by
  unfold ZKLending.getMaxBorrowable ZKLending.isPositionSolvent ZKLending.getPositionHealth
  rw [if_pos hp, if_neg hdebt, if_pos hp, if_neg hdebt, if_pos hp]
  exact ⟨rfl, rfl, rfl⟩

/-- C8 (witness): the amended theorem applied to an indebted account facing
the oracle price `-1`. -/
theorem C8_rejection_witness :
    exceptIsOk (ZKLending.getMaxBorrowable debtBadPriceState 0) = false ∧
    exceptIsOk (ZKLending.isPositionSolvent debtBadPriceState 0 5) = false ∧
    exceptIsOk (ZKLending.getPositionHealth debtBadPriceState 0) = false :=
  C8_nonpositive_price_rejected debtBadPriceState 0 5 (by decide) (by decide)

/-- C9: when an account with non-zero debt successfully withdraws
collateral, the remaining collateral still covers the required
collateralization (`remainingCollateralValue >=
borrowBalance * collateralizationRatio / 100`), only the caller's collateral
balance changes, and the resulting position is still solvent; a failed
withdrawal reverts and leaves the state untouched, which the `Except`
result models by returning no state. -/
theorem C9_withdraw_preserves_solvency (s s' : ZKLending.LState) (caller amount : Nat)
    (hdebt : s.borrowBalance caller ≠ 0)
    (h : ZKLending.withdrawCollateral s caller amount = .ok s') :
    s'.collateralBalance caller = s.collateralBalance caller - amount ∧
    s'.borrowBalance caller = s.borrowBalance caller ∧
    s.borrowBalance caller * s.collateralizationRatio / 100 ≤
      (s.collateralBalance caller - amount) * s.price.toNat / 10 ^ s.decimals ∧
    ZKLending.isPositionSolvent s' caller (s'.collateralBalance caller) = .ok true := by
  unfold ZKLending.withdrawCollateral at h
  split at h
  · exact absurd h (by simp)
  · split at h
    · exact absurd h (by simp)
    · split at h
      · exact absurd h (by simp)
      · exact absurd h (by simp)
      · rename_i hsolv
        injection h with h'
        subst h'
        have hcb : ({ s with collateralBalance := fun a =>
            if a = caller then s.collateralBalance caller - amount
            else s.collateralBalance a } : ZKLending.LState).collateralBalance caller =
            s.collateralBalance caller - amount := by
          simp
        have hineq : s.borrowBalance caller * s.collateralizationRatio / 100 ≤
            (s.collateralBalance caller - amount) * s.price.toNat / 10 ^ s.decimals := by
          unfold ZKLending.isPositionSolvent at hsolv
          rw [if_neg hdebt] at hsolv
          split at hsolv
          · exact absurd hsolv (by simp)
          · split at hsolv
            · exact absurd hsolv (by simp)
            · split at hsolv
              · exact absurd hsolv (by simp)
              · split at hsolv
                · exact absurd hsolv (by simp)
                · injection hsolv with h2
                  exact of_decide_eq_true h2
        refine ⟨hcb, rfl, hineq, ?_⟩
        rw [hcb]
        exact hsolv

/-- C9 (witness): account 0 of `sampleState` owes 50 and withdraws 10 of its
100 collateral; the withdrawal succeeds and the position stays solvent. -/
theorem C9_withdraw_witness :
    sampleStateAfterW.collateralBalance 0 = sampleState.collateralBalance 0 - 10 ∧
    sampleStateAfterW.borrowBalance 0 = sampleState.borrowBalance 0 ∧
    sampleState.borrowBalance 0 * sampleState.collateralizationRatio / 100 ≤
      (sampleState.collateralBalance 0 - 10) * sampleState.price.toNat /
        10 ^ sampleState.decimals ∧
    ZKLending.isPositionSolvent sampleStateAfterW 0 (sampleStateAfterW.collateralBalance 0) =
      .ok true :=
  C9_withdraw_preserves_solvency sampleState sampleStateAfterW 0 10 (by decide) (by rfl)

/-- C10: a successful `repay(amount)` has `amount > 0`, clamps the debt
(new debt is the old debt minus `amount` when `amount` is below the old
debt, and `0` otherwise, never underflowing), and the contract receives the
full transferred `amount` from the caller even when it exceeds the
outstanding debt — the surplus is kept, not refunded. -/
theorem C10_repay_clamps_debt (s s' : ZKLending.LState) (caller amount : Nat)
    (h : ZKLending.repay s caller amount = .ok s') :
    0 < amount ∧
    s'.borrowBalance caller =
      (if amount < s.borrowBalance caller then s.borrowBalance caller - amount else 0) ∧
    s'.contractStable = s.contractStable + amount ∧
    s'.stableBalance caller = s.stableBalance caller - amount := by
  unfold ZKLending.repay at h
  split at h
  · exact absurd h (by simp)
  · split at h
    · exact absurd h (by simp)
    · split at h
      · exact absurd h (by simp)
      · rename_i hnz _ _
        injection h with h'
        subst h'
        refine ⟨Nat.pos_of_ne_zero hnz, ?_, rfl, ?_⟩
        · have hb : (if (caller : Nat) = caller then
              (if s.borrowBalance caller ≤ amount then 0
               else s.borrowBalance caller - amount)
              else s.borrowBalance caller) =
              (if amount < s.borrowBalance caller then
                s.borrowBalance caller - amount else 0) := by
            rw [if_pos rfl]
            split
            · rw [if_neg (by omega)]
            · rw [if_pos (by omega)]
          exact hb
        · have hs : (if (caller : Nat) = caller then s.stableBalance caller - amount
              else s.stableBalance caller) = s.stableBalance caller - amount :=
            if_pos rfl
          exact hs

/-- C10 (witness): account 0 of `sampleState` owes 50 and repays 80: the
debt is clamped to 0 and the contract keeps the full 80. -/
theorem C10_repay_witness :
    0 < 80 ∧
    sampleStateAfterR.borrowBalance 0 =
      (if 80 < sampleState.borrowBalance 0 then sampleState.borrowBalance 0 - 80 else 0) ∧
    sampleStateAfterR.contractStable = sampleState.contractStable + 80 ∧
    sampleStateAfterR.stableBalance 0 = sampleState.stableBalance 0 - 80 :=
  C10_repay_clamps_debt sampleState sampleStateAfterR 0 80 (by rfl)

/-- C3 (witness): the proof generated from the scenario witness verifies
against its own public signals but is rejected — by the verifier, the
adapter, and the ledger's `borrow` — when presented with the empty public
input list. -/
theorem C3_no_replay_witness :
    Groth16.verifyProof (Groth16.prove scenarioAssignment) [] = false ∧
    VerifierAdapter.verifyProofWithValidation (Groth16.prove scenarioAssignment) [] 3 4 = false ∧
    exceptIsOk (ZKLending.borrow sampleState 3 4 (Groth16.prove scenarioAssignment) []) = false :=
  C3_no_replay (Groth16.prove scenarioAssignment) scenarioPublic [] 3 4 sampleState 3 4
    (by decide) (by decide)
